import Mathlib

/-!
Verification development for the llm-learning repository.

The repository consists of two Jupyter notebooks:
  * `rlhf/rlhf_1.ipynb` — an RLHF demo: it trains a DistilRoBERTa reward model
    on chosen/rejected preference pairs and then runs PPO on a LoRA-adapted
    LLaMA policy against that reward model;
  * an unnamed notebook (`src/unnamed/part_000`) — a tour of the
    `transformers.pipeline` interface over eight NLP tasks.

This file shallowly embeds the data manipulated by the notebooks' own code
(the pairwise dataset, the custom value-head forward method, the pad-token
fixup, the reward-model loss) and the notebooks' statement-level traces
(which library each statement calls, what it assigns, in which order), and
proves the specification claims about them.
-/

namespace LlmLearning

/-! ## CustomValueHeadModel.forward  (rlhf_1.ipynb, raw lines 74–88)

Source:
```python
def forward(self, *args, **kwargs):
    kwargs["output_hidden_states"] = True
    outputs = self.pretrained_model(*args, **kwargs)
    if hasattr(outputs, "logits"):
        return outputs
    else:
        raise ValueError("Expected model outputs to have `.logits`.")
```
The keyword arguments are modelled as a record holding the
`output_hidden_states` flag plus the remaining (untouched) keyword
arguments; the wrapped pretrained model is an arbitrary function from
keyword arguments to model outputs; a missing `logits` attribute is
modelled as `none`; `raise ValueError` is modelled as `Except.error`. -/

/-- Keyword arguments passed to the wrapped pretrained model:
the `output_hidden_states` flag, plus every other keyword argument
(modelled opaquely as key/value pairs, untouched by `forward`). -/
structure Kwargs where
  output_hidden_states : Bool
  rest : List (String × String)
  deriving DecidableEq

/-- Output of the wrapped pretrained model: `logits = none` models an output
object with no `logits` attribute; `hidden_states` and `others` model the
remaining attributes, carried through unchanged. -/
structure WrappedOutput where
  logits : Option (List (List ℚ))
  hidden_states : Option (List (List ℚ))
  others : List (String × String)
  deriving DecidableEq

/-- The statement `kwargs["output_hidden_states"] = True`. -/
def setHiddenStates (kw : Kwargs) : Kwargs :=
  { kw with output_hidden_states := true }

namespace CustomValueHeadModel

/-- `CustomValueHeadModel.forward` (rlhf_1.ipynb, raw lines 81–88): forces
`output_hidden_states := true`, calls the wrapped pretrained model on the
updated kwargs, returns its output unchanged when it has logits, and raises
`ValueError` otherwise. -/
def forward (pretrained_model : Kwargs → WrappedOutput) (kw : Kwargs) :
    Except String WrappedOutput :=
  let outputs := pretrained_model (setHiddenStates kw)
  if outputs.logits.isSome then
    Except.ok outputs
  else
    Except.error "Expected model outputs to have `.logits`."

end CustomValueHeadModel

/-! ## The policy tokenizer pad-token fixup  (rlhf_1.ipynb, raw lines 184–187)

Source:
```python
lm_tokenizer = AutoTokenizer.from_pretrained(lm_name, use_fast=False, padding_side="left")
if lm_tokenizer.pad_token is None:
    lm_tokenizer.pad_token = lm_tokenizer.eos_token
```
-/

/-- The two special-token slots of the loaded policy tokenizer; either may in
principle be absent (`none`), as in the HuggingFace tokenizer API. -/
structure LMTokenizer where
  pad_token : Option String
  eos_token : Option String
  deriving DecidableEq

/-- The pad-token fixup statement (rlhf_1.ipynb, raw lines 185–187):
assign `eos_token` to `pad_token` exactly when `pad_token` is `None`. -/
def setupPadToken (tok : LMTokenizer) : LMTokenizer :=
  if tok.pad_token = none then { tok with pad_token := tok.eos_token } else tok

/-! ## The reward-model batch loss  (rlhf_1.ipynb, raw lines 153–163)

Source (body of the training loop, per batch):
```python
chosen_scores = chosen_outputs.logits.squeeze(-1)
rejected_scores = rejected_outputs.logits.squeeze(-1)
loss = -torch.mean(chosen_scores - rejected_scores)
```
Logit tensors of shape `[batch, 1]` are modelled as lists of rows; tensor
values are modelled as rationals. -/

/-- `torch.mean` over a 1-dimensional tensor. -/
def tmean (xs : List ℚ) : ℚ := xs.sum / xs.length

/-- `.squeeze(-1)` on a `[batch, 1]` logits tensor: each row holds exactly
one scalar (the reward model has `num_labels=1`), which is extracted. -/
def squeezeLast (rows : List (List ℚ)) : List ℚ :=
  rows.map fun row => row.headD 0

/-- The per-batch reward-model loss of the training loop
(rlhf_1.ipynb, raw lines 158–161):
`-torch.mean(chosen_scores - rejected_scores)` where the scores are the
squeezed logits of the reward model on the batch. -/
def rmBatchLoss (chosenLogits rejectedLogits : List (List ℚ)) : ℚ :=
  -(tmean (List.zipWith (fun a b => a - b)
      (squeezeLast chosenLogits) (squeezeLast rejectedLogits)))

/-! ## PairwiseDataset  (rlhf_1.ipynb, raw lines 127–148)

Source:
```python
class PairwiseDataset(data.Dataset):
    def __init__(self, chosen_encodings, rejected_encodings):
        self.chosen_encodings = chosen_encodings
        self.rejected_encodings = rejected_encodings
    def __len__(self):
        return self.chosen_encodings["input_ids"].shape[0]
    def __getitem__(self, idx):
        return (
            {k: v[idx] for k, v in self.chosen_encodings.items()},
            {k: v[idx] for k, v in self.rejected_encodings.items()},
        )
```
A tokenizer output (`BatchEncoding`) holds the keys `input_ids` and
`attention_mask`, each a `[rows, seq]` integer tensor, modelled as a list of
rows. Out-of-range tensor indexing `v[idx]` fails, modelled with `Option`. -/

/-- A tokenizer output: the `input_ids` and `attention_mask` tensors, each a
list of token rows. -/
structure Encodings where
  input_ids : List (List Nat)
  attention_mask : List (List Nat)
  deriving DecidableEq

/-- Number of rows of an encodings batch: `encodings["input_ids"].shape[0]`. -/
def Encodings.rows (e : Encodings) : Nat := e.input_ids.length

/-- The dict comprehension `{k: v[idx] for k, v in encodings.items()}`:
row `idx` of every tensor of the batch; `none` when `idx` is out of range
for either tensor. -/
def Encodings.getRow (e : Encodings) (idx : Nat) :
    Option (List Nat × List Nat) :=
  match e.input_ids.get? idx, e.attention_mask.get? idx with
  | some a, some b => some (a, b)
  | _, _ => none

/-- The `PairwiseDataset` class: a pair of encodings batches. -/
structure PairwiseDataset where
  chosen_encodings : Encodings
  rejected_encodings : Encodings
  deriving DecidableEq

/-- `PairwiseDataset.__len__`: the number of rows of the chosen encodings. -/
def PairwiseDataset.len (d : PairwiseDataset) : Nat :=
  d.chosen_encodings.input_ids.length

/-- `PairwiseDataset.__getitem__`: the chosen and the rejected entry at the
same index `idx`; `none` models the runtime indexing error when `idx` is out
of range for any of the four tensors. -/
def PairwiseDataset.getItem (d : PairwiseDataset) (idx : Nat) :
    Option ((List Nat × List Nat) × (List Nat × List Nat)) :=
  match d.chosen_encodings.getRow idx, d.rejected_encodings.getRow idx with
  | some c, some r => some (c, r)
  | _, _ => none

/-! ## Statement-level trace of the RLHF notebook

The RLHF notebook (`rlhf/rlhf_1.ipynb`) is a single linear code cell; its
top-level statements execute in textual order. Each statement is recorded
below with: which external libraries it invokes, which variables it
(re)binds, which of the spec's six substantive operations it performs, and
its classification (a configuration choice / glue around library calls /
a bespoke algorithm — the last never occurs). In-place mutation of an
object (e.g. `optimizer.step()` updating `rm_model`'s parameters) is not a
rebinding and is not listed under `assigns`. -/

/-- The external libraries the notebooks call into. -/
inductive Lib
  | torch
  | transformers
  | datasets
  | peft
  | trl
  deriving DecidableEq

/-- The six substantive operations the spec says are delegated to external
libraries. -/
inductive SubstOp
  | tokenization
  | modelLoading
  | gradientComputation
  | policyOptimizationLoop
  | quantization
  | adapterInjection
  deriving DecidableEq

/-- Classification of a notebook statement: a pure configuration choice
(literal assignments, attribute settings), glue wiring library calls
together (including thin local wrapper classes whose bodies only call
libraries, access fields and index), or a bespoke algorithm invented by the
repository (no statement is classified this way). -/
inductive StmtKind
  | configChoice
  | libGlue
  | bespokeAlgorithm
  deriving DecidableEq

/-- Distinguished statements of the RLHF notebook that the claims single
out. -/
inductive StmtTag
  | plain
  | rmTrainLoop
  | ppoTrainerInit
  | ppoTrainCall
  deriving DecidableEq

/-- One top-level statement of the RLHF notebook. -/
structure Stmt where
  name : String
  kind : StmtKind
  assigns : List String := []
  libCalls : List Lib := []
  ops : List SubstOp := []
  tag : StmtTag := StmtTag.plain
  /-- for `ppo_trainer = trl.PPOTrainer(...)`: its `reward_model=` argument. -/
  rewardModelArg : Option String := none
  /-- for `ppo_trainer = trl.PPOTrainer(...)`: its `model=` argument. -/
  modelArg : Option String := none
  /-- for the reward-model training loop: the model whose parameters the
  loop's optimizer updates in place. -/
  trainsVar : Option String := none
  /-- for an assignment: the earlier-bound variables the assigned value is
  constructed from. -/
  buildsOn : List String := []
  deriving DecidableEq

/-- The top-level statements of `rlhf/rlhf_1.ipynb`, in source order (raw
notebook line numbers in the comments). -/
def rlhfScript : List Stmt :=
  [ -- lines 42–45: import os; os.environ["WANDB_DISABLED"] = "true"
    { name := "wandb_env", kind := StmtKind.configChoice },
    -- lines 47–60: imports of torch, transformers, datasets, peft, trl
    { name := "imports", kind := StmtKind.configChoice },
    -- line 63: trl.set_seed(241218)
    { name := "set_seed", kind := StmtKind.libGlue, libCalls := [Lib.trl] },
    -- lines 66–72: @dataclasses.dataclass class SimpleModelOutput(file_utils.ModelOutput)
    { name := "SimpleModelOutput_def", kind := StmtKind.libGlue,
      assigns := ["SimpleModelOutput"], libCalls := [Lib.transformers] },
    -- lines 74–88: class CustomValueHeadModel(trl.AutoModelForCausalLMWithValueHead)
    { name := "CustomValueHeadModel_def", kind := StmtKind.libGlue,
      assigns := ["CustomValueHeadModel"], libCalls := [Lib.trl] },
    -- line 91: dataset_name = "Anthropic/hh-rlhf"
    { name := "dataset_name_assign", kind := StmtKind.configChoice,
      assigns := ["dataset_name"] },
    -- line 92: dataset = datasets.load_dataset(dataset_name, split="train")
    { name := "load_dataset", kind := StmtKind.libGlue,
      assigns := ["dataset"], libCalls := [Lib.datasets],
      buildsOn := ["dataset_name"] },
    -- line 94: dataset = dataset.shuffle(seed=42).select(range(1000))
    { name := "shuffle_select", kind := StmtKind.libGlue,
      assigns := ["dataset"], libCalls := [Lib.datasets],
      buildsOn := ["dataset"] },
    -- lines 96–98: def preprocess(examples) — pure field extraction
    { name := "preprocess_def", kind := StmtKind.libGlue,
      assigns := ["preprocess"] },
    -- line 100: processed_dataset = dataset.map(preprocess, batched=True)
    { name := "dataset_map", kind := StmtKind.libGlue,
      assigns := ["processed_dataset"], libCalls := [Lib.datasets],
      buildsOn := ["dataset", "preprocess"] },
    -- line 103: rm_name = "distilroberta-base"
    { name := "rm_name_assign", kind := StmtKind.configChoice,
      assigns := ["rm_name"] },
    -- line 104: rm_tokenizer = AutoTokenizer.from_pretrained(rm_name)
    { name := "rm_tokenizer_load", kind := StmtKind.libGlue,
      assigns := ["rm_tokenizer"], libCalls := [Lib.transformers],
      buildsOn := ["rm_name"] },
    -- line 105: rm_model = AutoModelForSequenceClassification.from_pretrained(rm_name, num_labels=1)
    { name := "rm_model_load", kind := StmtKind.libGlue,
      assigns := ["rm_model"], libCalls := [Lib.transformers],
      ops := [SubstOp.modelLoading], buildsOn := ["rm_name"] },
    -- lines 106–107: rm_model_config = rm_model.config; rm_model_config.output_hidden_states = True
    { name := "rm_config_hidden_states", kind := StmtKind.configChoice,
      assigns := ["rm_model_config"], buildsOn := ["rm_model"] },
    -- line 110: rm_model.token_value_head = nn.Linear(rm_model.config.hidden_size, 1)
    { name := "rm_token_value_head", kind := StmtKind.libGlue,
      libCalls := [Lib.torch] },
    -- lines 112–115: def rm_score(self, hidden_states)
    { name := "rm_score_def", kind := StmtKind.libGlue,
      assigns := ["rm_score"], libCalls := [Lib.torch] },
    -- line 117: rm_model.score = rm_score.__get__(rm_model, type(rm_model))
    { name := "rm_score_bind", kind := StmtKind.configChoice },
    -- lines 120–122: chosen_encodings = rm_tokenizer(processed_dataset["chosen"], ...)
    { name := "chosen_encodings_tokenize", kind := StmtKind.libGlue,
      assigns := ["chosen_encodings"], libCalls := [Lib.transformers],
      ops := [SubstOp.tokenization],
      buildsOn := ["rm_tokenizer", "processed_dataset"] },
    -- lines 123–125: rejected_encodings = rm_tokenizer(processed_dataset["rejected"], ...)
    { name := "rejected_encodings_tokenize", kind := StmtKind.libGlue,
      assigns := ["rejected_encodings"], libCalls := [Lib.transformers],
      ops := [SubstOp.tokenization],
      buildsOn := ["rm_tokenizer", "processed_dataset"] },
    -- lines 127–145: class PairwiseDataset(data.Dataset)
    { name := "PairwiseDataset_def", kind := StmtKind.libGlue,
      assigns := ["PairwiseDataset"], libCalls := [Lib.torch] },
    -- line 147: pairwise_dataset = PairwiseDataset(chosen_encodings, rejected_encodings)
    { name := "pairwise_dataset_init", kind := StmtKind.libGlue,
      assigns := ["pairwise_dataset"],
      buildsOn := ["PairwiseDataset", "chosen_encodings", "rejected_encodings"] },
    -- line 148: pairwise_loader = data.DataLoader(pairwise_dataset, batch_size=8, shuffle=True)
    { name := "pairwise_loader_init", kind := StmtKind.libGlue,
      assigns := ["pairwise_loader"], libCalls := [Lib.torch],
      buildsOn := ["pairwise_dataset"] },
    -- line 151: optimizer = optim.AdamW(rm_model.parameters(), lr=1e-5)
    { name := "rm_optimizer_init", kind := StmtKind.libGlue,
      assigns := ["optimizer"], libCalls := [Lib.torch],
      buildsOn := ["rm_model"] },
    -- line 152: rm_model.train()
    { name := "rm_model_train_mode", kind := StmtKind.libGlue,
      libCalls := [Lib.torch] },
    -- lines 153–163: for epoch in range(1): for chosen, rejected in pairwise_loader: ...
    -- (forward passes of rm_model, loss = -torch.mean(...), loss.backward(),
    -- optimizer.step() — updates rm_model's parameters in place)
    { name := "rm_train_loop", kind := StmtKind.libGlue,
      libCalls := [Lib.torch, Lib.transformers],
      ops := [SubstOp.gradientComputation], tag := StmtTag.rmTrainLoop,
      trainsVar := some "rm_model",
      buildsOn := ["pairwise_loader", "rm_model", "optimizer"] },
    -- lines 166–179: class PromptDataset(data.Dataset)
    { name := "PromptDataset_def", kind := StmtKind.libGlue,
      assigns := ["PromptDataset"], libCalls := [Lib.torch] },
    -- line 183: lm_name = "huggyllama/llama-7b"
    { name := "lm_name_assign", kind := StmtKind.configChoice,
      assigns := ["lm_name"] },
    -- line 184: lm_tokenizer = AutoTokenizer.from_pretrained(lm_name, use_fast=False, padding_side="left")
    { name := "lm_tokenizer_load", kind := StmtKind.libGlue,
      assigns := ["lm_tokenizer"], libCalls := [Lib.transformers],
      buildsOn := ["lm_name"] },
    -- lines 185–187: if lm_tokenizer.pad_token is None: lm_tokenizer.pad_token = lm_tokenizer.eos_token
    { name := "lm_pad_token_fixup", kind := StmtKind.configChoice },
    -- lines 189–191: prompt_encodings = lm_tokenizer(processed_dataset["chosen"], ...)
    { name := "prompt_encodings_tokenize", kind := StmtKind.libGlue,
      assigns := ["prompt_encodings"], libCalls := [Lib.transformers],
      ops := [SubstOp.tokenization],
      buildsOn := ["lm_tokenizer", "processed_dataset"] },
    -- line 192: prompt_dataset = PromptDataset(prompt_encodings)
    { name := "prompt_dataset_init", kind := StmtKind.libGlue,
      assigns := ["prompt_dataset"],
      buildsOn := ["PromptDataset", "prompt_encodings"] },
    -- lines 195–197: lm_model = AutoModelForCausalLM.from_pretrained(lm_name, load_in_4bit=True, ...)
    { name := "lm_model_load_4bit", kind := StmtKind.libGlue,
      assigns := ["lm_model"], libCalls := [Lib.transformers],
      ops := [SubstOp.modelLoading, SubstOp.quantization],
      buildsOn := ["lm_name"] },
    -- line 198: lm_model.gradient_checkpointing_enable()
    { name := "gradient_checkpointing", kind := StmtKind.libGlue,
      libCalls := [Lib.transformers] },
    -- lines 201–203: lora_config = peft.LoraConfig(r=8, lora_alpha=16, lora_dropout=0.1, ...)
    { name := "lora_config_init", kind := StmtKind.configChoice,
      assigns := ["lora_config"], libCalls := [Lib.peft] },
    -- line 204: lora_model = peft.get_peft_model(lm_model, lora_config)
    { name := "get_peft_model", kind := StmtKind.libGlue,
      assigns := ["lora_model"], libCalls := [Lib.peft],
      ops := [SubstOp.adapterInjection],
      buildsOn := ["lm_model", "lora_config"] },
    -- line 205: lora_model.train()
    { name := "lora_train_mode", kind := StmtKind.libGlue,
      libCalls := [Lib.torch] },
    -- line 208: ppo_model = CustomValueHeadModel(pretrained_model=lora_model, torch_dtype=torch.float16)
    { name := "ppo_model_init", kind := StmtKind.libGlue,
      assigns := ["ppo_model"], libCalls := [Lib.trl],
      buildsOn := ["CustomValueHeadModel", "lora_model"] },
    -- lines 209–215: generation_config fixup on ppo_model.pretrained_model
    { name := "generation_config_fixup", kind := StmtKind.configChoice,
      libCalls := [Lib.transformers] },
    -- lines 216–217: ppo_model attribute settings (base model prefix, is peft model)
    { name := "ppo_model_attrs", kind := StmtKind.configChoice },
    -- lines 219–223: def score(self, hidden_states); ppo_model.score = score.__get__(...)
    { name := "ppo_score_def", kind := StmtKind.libGlue,
      assigns := ["score"], libCalls := [Lib.torch] },
    -- lines 226–237: ppo_config = trl.PPOConfig(...)
    { name := "ppo_config_init", kind := StmtKind.configChoice,
      assigns := ["ppo_config"], libCalls := [Lib.trl] },
    -- lines 240–248: ppo_trainer = trl.PPOTrainer(args=ppo_config, model=ppo_model,
    --   value_model=ppo_model, processing class lm_tokenizer, ref_model=None,
    --   reward_model=rm_model, train_dataset=prompt_dataset)
    { name := "ppo_trainer_init", kind := StmtKind.libGlue,
      assigns := ["ppo_trainer"], libCalls := [Lib.trl],
      tag := StmtTag.ppoTrainerInit,
      rewardModelArg := some "rm_model", modelArg := some "ppo_model",
      buildsOn := ["ppo_config", "ppo_model", "lm_tokenizer", "rm_model",
                   "prompt_dataset"] },
    -- line 251: ppo_trainer.train()
    { name := "ppo_train_call", kind := StmtKind.libGlue,
      libCalls := [Lib.trl], ops := [SubstOp.policyOptimizationLoop],
      tag := StmtTag.ppoTrainCall, buildsOn := ["ppo_trainer"] },
    -- lines 254–259: test prompt, lm_tokenizer.encode, ppo_model.pretrained_model.generate
    { name := "test_generation", kind := StmtKind.libGlue,
      assigns := ["test_prompt", "query_tensor", "ppo_pretrained_model",
                  "response"],
      libCalls := [Lib.transformers],
      buildsOn := ["lm_tokenizer", "ppo_model"] },
    -- lines 260–262: final_response = lm_tokenizer.decode(...); print(...)
    { name := "decode_print", kind := StmtKind.libGlue,
      assigns := ["final_response"], libCalls := [Lib.transformers],
      buildsOn := ["lm_tokenizer", "response"] } ]

/-! ## Configuration objects of the RLHF notebook -/

/-- The fields of `peft.LoraConfig` as constructed by the notebook
(raw lines 201–203). -/
structure LoraConfig where
  r : Nat
  lora_alpha : Nat
  lora_dropout : ℚ
  bias : String
  task_type : String
  deriving DecidableEq

/-- `lora_config = peft.LoraConfig(r=8, lora_alpha=16, lora_dropout=0.1,
bias="none", task_type="CAUSAL_LM")` (raw lines 201–203). -/
def lora_config : LoraConfig :=
  { r := 8, lora_alpha := 16, lora_dropout := 1/10, bias := "none",
    task_type := "CAUSAL_LM" }

/-- The fields of `trl.PPOConfig` as constructed by the notebook
(raw lines 226–237). -/
structure PPOConfig where
  output_dir : String
  learning_rate : ℚ
  batch_size : Nat
  mini_batch_size : Nat
  gradient_accumulation_steps : Nat
  num_ppo_epochs : Nat
  cliprange : ℚ
  gamma : ℚ
  lam : ℚ
  num_sample_generations : Nat
  deriving DecidableEq

/-- `ppo_config = trl.PPOConfig(output_dir="ppo_checkpoints",
learning_rate=1e-5, batch_size=2, mini_batch_size=1,
gradient_accumulation_steps=1, num_ppo_epochs=1, cliprange=0.2, gamma=1.0,
lam=0.95, num_sample_generations=0)` (raw lines 226–237). -/
def ppo_config : PPOConfig :=
  { output_dir := "ppo_checkpoints", learning_rate := 1/100000,
    batch_size := 2, mini_batch_size := 1, gradient_accumulation_steps := 1,
    num_ppo_epochs := 1, cliprange := 2/10, gamma := 1, lam := 95/100,
    num_sample_generations := 0 }

/-! ## Parameter-efficiency model of the PPO policy

The notebook's policy is `ppo_model = CustomValueHeadModel(pretrained_model
= lora_model)` where `lora_model = peft.get_peft_model(lm_model,
lora_config)`. The following models the documented behaviour of the
libraries the notebook wires together: `peft.get_peft_model` freezes every
pretrained base-model weight (`requires_grad=False`) and injects trainable
low-rank adapter weights; the TRL value-head wrapper adds a trainable value
head `v_head`; an optimizer step inside PPO training updates trainable
parameters only. -/

/-- The three parameter groups of the PPO policy: frozen pretrained base
weights, injected LoRA adapter weights, and the value head. -/
structure PolicyParams where
  baseWeights : List ℚ
  loraWeights : List ℚ
  vHeadWeights : List ℚ
  deriving DecidableEq

/-- One optimizer step during PPO training: applies arbitrary updates to the
trainable parameter groups (adapters and value head) and leaves the frozen
base weights untouched. -/
def ppoOptimizerStep (updLora updVHead : List ℚ → List ℚ)
    (p : PolicyParams) : PolicyParams :=
  { baseWeights := p.baseWeights, loraWeights := updLora p.loraWeights,
    vHeadWeights := updVHead p.vHeadWeights }

/-- A whole PPO training run: any finite sequence of optimizer steps. -/
def runPpoSteps : List ((List ℚ → List ℚ) × (List ℚ → List ℚ)) →
    PolicyParams → PolicyParams
  | [], p => p
  | u :: us, p => runPpoSteps us (ppoOptimizerStep u.1 u.2 p)

/-! ## Statement-level trace of the pipeline-tour notebook

The unnamed notebook (`src/unnamed/part_000`) is a sequence of cells, each
either setup or a `transformers.pipeline` construction / invocation. The
inputs of the invocations are recorded by their form (their text payloads
are in the source; only the shape matters to the claims), and the outputs by
the shape of the post-processed Python value recorded in the notebook's
stored outputs. -/

/-- The form of a Python value passed to (or producible for) a model-like
callable: raw text in its three variants used by the notebook, or a token
tensor (never passed — pipelines receive raw text only). -/
inductive PyInput
  | str
  | strList (n : Nat)
  | strWithLabels (numLabels : Nat)
  | questionContext
  | tokenTensor
  deriving DecidableEq

/-- Whether an input form is raw text (a string, a list of strings, or
question/context strings), as opposed to pre-tokenized tensors. -/
def PyInput.rawText : PyInput → Bool
  | PyInput.tokenTensor => false
  | _ => true

/-- Shape of the post-processed Python structure a pipeline call returns, as
recorded in the notebook's stored outputs. -/
inductive OutShape
  | listOfDicts
  | dict
  deriving DecidableEq

/-- The role of a statement of the pipeline-tour notebook. -/
inductive TourKind
  | setup
  | pipelineConstruct
  | pipelineInvoke
  | directModelUse
  | directTokenizerUse
  deriving DecidableEq

/-- One statement of the pipeline-tour notebook. -/
structure TourStmt where
  name : String
  kind : StmtKind
  tourKind : TourKind
  task : Option String := none
  modelName : Option String := none
  input : Option PyInput := none
  output : Option OutShape := none
  deriving DecidableEq

/-- The statements of `src/unnamed/part_000`, in cell order (raw file line
numbers in the comments). -/
def tourScript : List TourStmt :=
  [ -- lines 23–41: imports, env var, warnings filters, DEVICE selection;
    -- includes `jupyter_formatting.setup_notebook_formatting()` from the
    -- repository's `utils` module (display formatting only, per its name)
    { name := "setup_cell", kind := StmtKind.configChoice,
      tourKind := TourKind.setup },
    -- lines 74–76: classifier = transformers.pipeline("sentiment-analysis", ...)
    { name := "sentiment_construct", kind := StmtKind.libGlue,
      tourKind := TourKind.pipelineConstruct,
      task := some "sentiment-analysis",
      modelName := some "distilbert-base-uncased-finetuned-sst-2-english" },
    -- line 77: classifier("I've been waiting for a HuggingFace course my whole life.")
    { name := "sentiment_invoke_single", kind := StmtKind.libGlue,
      tourKind := TourKind.pipelineInvoke,
      task := some "sentiment-analysis", input := some PyInput.str,
      output := some OutShape.listOfDicts },
    -- line 106: classifier([... , "I hate this so much!"])
    { name := "sentiment_invoke_list", kind := StmtKind.libGlue,
      tourKind := TourKind.pipelineInvoke,
      task := some "sentiment-analysis",
      input := some (PyInput.strList 2),
      output := some OutShape.listOfDicts },
    -- lines 145–147: classifier = transformers.pipeline("zero-shot-classification", ...)
    { name := "zero_shot_construct", kind := StmtKind.libGlue,
      tourKind := TourKind.pipelineConstruct,
      task := some "zero-shot-classification",
      modelName := some "facebook/bart-large-mnli" },
    -- lines 148–151: classifier("This is a course ...", candidate_labels=[...])
    { name := "zero_shot_invoke", kind := StmtKind.libGlue,
      tourKind := TourKind.pipelineInvoke,
      task := some "zero-shot-classification",
      input := some (PyInput.strWithLabels 3),
      output := some OutShape.dict },
    -- line 191: generator = transformers.pipeline("text-generation", model="openai-community/gpt2", ...)
    { name := "text_gen_gpt2_construct", kind := StmtKind.libGlue,
      tourKind := TourKind.pipelineConstruct,
      task := some "text-generation",
      modelName := some "openai-community/gpt2" },
    -- line 192: generator("In this course, we will teach you how to")
    { name := "text_gen_gpt2_invoke", kind := StmtKind.libGlue,
      tourKind := TourKind.pipelineInvoke,
      task := some "text-generation", input := some PyInput.str,
      output := some OutShape.listOfDicts },
    -- line 236: generator = transformers.pipeline("text-generation", model="distilgpt2")
    { name := "text_gen_distilgpt2_construct", kind := StmtKind.libGlue,
      tourKind := TourKind.pipelineConstruct,
      task := some "text-generation", modelName := some "distilgpt2" },
    -- line 237: generator("In this course, ...", max_length=30, num_return_sequences=2)
    { name := "text_gen_distilgpt2_invoke", kind := StmtKind.libGlue,
      tourKind := TourKind.pipelineInvoke,
      task := some "text-generation", input := some PyInput.str,
      output := some OutShape.listOfDicts },
    -- line 286: unmasker = transformers.pipeline("fill-mask", ...)
    { name := "fill_mask_construct", kind := StmtKind.libGlue,
      tourKind := TourKind.pipelineConstruct,
      task := some "fill-mask",
      modelName := some "distilbert/distilroberta-base" },
    -- line 287: unmasker("This course will teach you all about <mask> models.", top_k=2)
    { name := "fill_mask_invoke", kind := StmtKind.libGlue,
      tourKind := TourKind.pipelineInvoke,
      task := some "fill-mask", input := some PyInput.str,
      output := some OutShape.listOfDicts },
    -- lines 345–347: ner = transformers.pipeline("ner", ..., grouped_entities=True)
    { name := "ner_construct", kind := StmtKind.libGlue,
      tourKind := TourKind.pipelineConstruct,
      task := some "ner",
      modelName := some "dbmdz/bert-large-cased-finetuned-conll03-english" },
    -- line 348: ner("My name is Sylvian and I work at Hugging Face in Brooklyn")
    { name := "ner_invoke", kind := StmtKind.libGlue,
      tourKind := TourKind.pipelineInvoke,
      task := some "ner", input := some PyInput.str,
      output := some OutShape.listOfDicts },
    -- lines 380–382: question_answerer = transformers.pipeline("question-answering", ...)
    { name := "qa_construct", kind := StmtKind.libGlue,
      tourKind := TourKind.pipelineConstruct,
      task := some "question-answering",
      modelName := some "distilbert/distilbert-base-cased-distilled-squad" },
    -- lines 383–385: question_answerer(question="Where do I live?", context="My name is Seth ...")
    { name := "qa_invoke", kind := StmtKind.libGlue,
      tourKind := TourKind.pipelineInvoke,
      task := some "question-answering",
      input := some PyInput.questionContext,
      output := some OutShape.dict },
    -- lines 422–424: summarizer = transformers.pipeline("summarization", ...)
    { name := "summarization_construct", kind := StmtKind.libGlue,
      tourKind := TourKind.pipelineConstruct,
      task := some "summarization",
      modelName := some "sshleifer/distilbart-cnn-12-3" },
    -- lines 425–446: summarizer("""America has changed dramatically ...""")
    { name := "summarization_invoke", kind := StmtKind.libGlue,
      tourKind := TourKind.pipelineInvoke,
      task := some "summarization", input := some PyInput.str,
      output := some OutShape.listOfDicts },
    -- lines 477–479: translator = transformers.pipeline("translation", ...)
    { name := "translation_construct", kind := StmtKind.libGlue,
      tourKind := TourKind.pipelineConstruct,
      task := some "translation",
      modelName := some "Helsinki-NLP/opus-mt-fr-en" },
    -- line 480: translator("Ce cours est produit par Hugging Face.")
    { name := "translation_invoke", kind := StmtKind.libGlue,
      tourKind := TourKind.pipelineInvoke,
      task := some "translation", input := some PyInput.str,
      output := some OutShape.listOfDicts } ]

/-- One pipeline construction of the tour notebook together with the number
of times the constructed pipeline object is invoked before being rebound. -/
structure PipelineUse where
  task : String
  modelName : String
  numCalls : Nat
  deriving DecidableEq

/-- The nine `transformers.pipeline(...)` constructions of
`src/unnamed/part_000`, in order, each with its invocation count. -/
def pipelineUses : List PipelineUse :=
  [ { task := "sentiment-analysis",
      modelName := "distilbert-base-uncased-finetuned-sst-2-english",
      numCalls := 2 },
    { task := "zero-shot-classification",
      modelName := "facebook/bart-large-mnli", numCalls := 1 },
    { task := "text-generation", modelName := "openai-community/gpt2",
      numCalls := 1 },
    { task := "text-generation", modelName := "distilgpt2", numCalls := 1 },
    { task := "fill-mask", modelName := "distilbert/distilroberta-base",
      numCalls := 1 },
    { task := "ner",
      modelName := "dbmdz/bert-large-cased-finetuned-conll03-english",
      numCalls := 1 },
    { task := "question-answering",
      modelName := "distilbert/distilbert-base-cased-distilled-squad",
      numCalls := 1 },
    { task := "summarization", modelName := "sshleifer/distilbart-cnn-12-3",
      numCalls := 1 },
    { task := "translation", modelName := "Helsinki-NLP/opus-mt-fr-en",
      numCalls := 1 } ]

/-- The eight NLP tasks listed by the spec for the pipeline tour, in the
order they appear in the notebook. -/
def listedTasks : List String :=
  [ "sentiment-analysis", "zero-shot-classification", "text-generation",
    "fill-mask", "ner", "question-answering", "summarization",
    "translation" ]

/-! ## Helper lemmas -/

/-- Elementwise subtraction of equal-length lists sums to the difference of
the sums. -/
theorem sum_zipWith_sub (a b : List ℚ) (h : a.length = b.length) :
    (List.zipWith (fun x y => x - y) a b).sum = a.sum - b.sum := by
  induction a generalizing b with
  | nil =>
    cases b with
    | nil => simp
    | cons y ys => simp at h
  | cons x xs ih =>
    cases b with
    | nil => simp at h
    | cons y ys =>
      simp only [List.zipWith_cons_cons, List.sum_cons]
      rw [ih ys (by simpa using h)]
      ring

/-- A row lookup in an encodings batch succeeds exactly when the index is in
range for both tensors. -/
theorem getRow_isSome_iff (e : Encodings) (i : Nat) :
    (e.getRow i).isSome = true ↔
      i < e.input_ids.length ∧ i < e.attention_mask.length := by
  unfold Encodings.getRow
  cases ha : e.input_ids.get? i with
  | none =>
    simp only [Option.isSome_none]
    rw [List.get?_eq_none] at ha
    simp
    omega
  | some a =>
    cases hb : e.attention_mask.get? i with
    | none =>
      simp only [Option.isSome_none]
      rw [List.get?_eq_none] at hb
      simp
      omega
    | some b =>
      have ha' : i < e.input_ids.length := by
        by_contra hcon
        rw [List.get?_eq_none.mpr (by omega)] at ha
        exact Option.noConfusion ha
      have hb' : i < e.attention_mask.length := by
        by_contra hcon
        rw [List.get?_eq_none.mpr (by omega)] at hb
        exact Option.noConfusion hb
      simp [ha', hb']

/-- Characterization of a successful row lookup: both tensors hold a row at
the index. -/
theorem getRow_eq_some_iff (e : Encodings) (i : Nat) (a b : List Nat) :
    e.getRow i = some (a, b) ↔
      e.input_ids.get? i = some a ∧ e.attention_mask.get? i = some b := by
  unfold Encodings.getRow
  cases h1 : e.input_ids.get? i <;> cases h2 : e.attention_mask.get? i <;>
    simp

/-- A whole PPO run never touches the frozen base weights. -/
theorem runPpoSteps_base
    (steps : List ((List ℚ → List ℚ) × (List ℚ → List ℚ)))
    (p : PolicyParams) :
    (runPpoSteps steps p).baseWeights = p.baseWeights := by
  induction steps generalizing p with
  | nil => rfl
  | cons u us ih =>
    simpa [runPpoSteps, ppoOptimizerStep] using ih (ppoOptimizerStep u.1 u.2 p)

/-! ## Claim theorems -/

/-- C1: the RLHF notebook performs its two training stages in order — the
reward-model training loop occurs exactly once and strictly before the
single PPO-trainer construction, which occurs strictly before the single
`ppo_trainer.train()` call; the trainer's `reward_model=` argument is the
variable `rm_model`, which is exactly the variable whose parameters the
first-stage loop trains, and no later statement rebinds `rm_model`. -/
theorem rlhf_two_stage_order :
    rlhfScript.countP (fun s => s.tag == StmtTag.rmTrainLoop) = 1 ∧
    rlhfScript.countP (fun s => s.tag == StmtTag.ppoTrainerInit) = 1 ∧
    rlhfScript.countP (fun s => s.tag == StmtTag.ppoTrainCall) = 1 ∧
    rlhfScript.findIdx (fun s => s.tag == StmtTag.rmTrainLoop) <
      rlhfScript.findIdx (fun s => s.tag == StmtTag.ppoTrainerInit) ∧
    rlhfScript.findIdx (fun s => s.tag == StmtTag.ppoTrainerInit) <
      rlhfScript.findIdx (fun s => s.tag == StmtTag.ppoTrainCall) ∧
    (rlhfScript.filter (fun s => s.tag == StmtTag.ppoTrainerInit)).map
      Stmt.rewardModelArg = [some "rm_model"] ∧
    (rlhfScript.filter (fun s => s.tag == StmtTag.rmTrainLoop)).map
      Stmt.trainsVar = [some "rm_model"] ∧
    ((rlhfScript.drop
        (rlhfScript.findIdx (fun s => s.tag == StmtTag.rmTrainLoop) + 1)).all
      (fun s => !(s.assigns.contains "rm_model"))) = true := by
  decide

/-- C2: the per-batch reward-model loss `-torch.mean(chosen_scores -
rejected_scores)` over the squeezed logits equals the negated mean margin of
chosen over rejected, i.e. minus (mean chosen score − mean rejected score);
minimizing it maximizes the mean raw score margin. -/
theorem rmBatchLoss_eq_mean_margin (cL rL : List (List ℚ))
    (h : cL.length = rL.length) :
    rmBatchLoss cL rL =
      -(tmean (squeezeLast cL) - tmean (squeezeLast rL)) ∧
    rmBatchLoss cL rL =
      tmean (squeezeLast rL) - tmean (squeezeLast cL) := by
  have hlen : (squeezeLast cL).length = (squeezeLast rL).length := by
    simp [squeezeLast, h]
  have hz : (List.zipWith (fun a b => a - b)
      (squeezeLast cL) (squeezeLast rL)).length = (squeezeLast cL).length := by
    rw [List.length_zipWith, hlen, Nat.min_self]
  have hs := sum_zipWith_sub (squeezeLast cL) (squeezeLast rL) hlen
  have key : rmBatchLoss cL rL =
      -(tmean (squeezeLast cL) - tmean (squeezeLast rL)) := by
    unfold rmBatchLoss tmean
    rw [hz, hs, hlen, sub_div]
  exact ⟨key, by rw [key]; ring⟩

/-- C2 witness: the theorem applied to the concrete batch with chosen logits
`[[3], [1]]` and rejected logits `[[2], [0]]`. -/
theorem rmBatchLoss_eq_mean_margin_witness :
    ([[(3 : ℚ)], [1]] : List (List ℚ)).length =
      ([[(2 : ℚ)], [0]] : List (List ℚ)).length ∧
    rmBatchLoss [[(3 : ℚ)], [1]] [[(2 : ℚ)], [0]] =
      tmean (squeezeLast [[(2 : ℚ)], [0]]) -
        tmean (squeezeLast [[(3 : ℚ)], [1]]) :=
  ⟨rfl, (rmBatchLoss_eq_mean_margin [[(3 : ℚ)], [1]] [[(2 : ℚ)], [0]] rfl).2⟩

/-- C3: each of the six substantive operations the spec lists (tokenization,
model loading, gradient computation, the policy-optimization loop,
quantization, adapter injection) is performed by a statement that calls an
external library, and no statement of either notebook is classified as a
bespoke algorithm — every statement is a configuration choice or glue
around library calls. -/
theorem all_substantive_ops_delegated :
    (∃ s ∈ rlhfScript,
      SubstOp.tokenization ∈ s.ops ∧ 1 ≤ s.libCalls.length) ∧
    (∃ s ∈ rlhfScript,
      SubstOp.modelLoading ∈ s.ops ∧ 1 ≤ s.libCalls.length) ∧
    (∃ s ∈ rlhfScript,
      SubstOp.gradientComputation ∈ s.ops ∧ 1 ≤ s.libCalls.length) ∧
    (∃ s ∈ rlhfScript,
      SubstOp.policyOptimizationLoop ∈ s.ops ∧ 1 ≤ s.libCalls.length) ∧
    (∃ s ∈ rlhfScript,
      SubstOp.quantization ∈ s.ops ∧ 1 ≤ s.libCalls.length) ∧
    (∃ s ∈ rlhfScript,
      SubstOp.adapterInjection ∈ s.ops ∧ 1 ≤ s.libCalls.length) ∧
    rlhfScript.all (fun s => !(s.kind == StmtKind.bespokeAlgorithm)) = true ∧
    tourScript.all (fun s => !(s.kind == StmtKind.bespokeAlgorithm)) = true := by
  decide

/-- C4 counterexample: the claim says one pipeline per task, but the
notebook constructs two `text-generation` pipelines (with
`openai-community/gpt2` and with `distilgpt2`), so the per-task
construction count is not everywhere one. -/
theorem one_pipeline_per_task_refuted :
    pipelineUses.countP (fun u => u.task == "text-generation") = 2 ∧
    ¬ (∀ t ∈ listedTasks,
        pipelineUses.countP (fun u => u.task == t) = 1) := by
  decide

/-- C4 amended: the tour constructs and invokes pipelines for exactly the
eight listed tasks — every constructed pipeline's task is among them, every
listed task gets at least one pipeline, each task other than
`text-generation` gets exactly one while `text-generation` gets two, and
every constructed pipeline is invoked on at least one example input. -/
theorem pipeline_tour_tasks_amended :
    (pipelineUses.map PipelineUse.task).dedup = listedTasks ∧
    listedTasks.all
      (fun t => decide (1 ≤ pipelineUses.countP (fun u => u.task == t))) =
      true ∧
    pipelineUses.countP (fun u => u.task == "text-generation") = 2 ∧
    listedTasks.all
      (fun t => t == "text-generation" ||
        pipelineUses.countP (fun u => u.task == t) == 1) = true ∧
    pipelineUses.all (fun u => decide (1 ≤ u.numCalls)) = true := by
  decide

/-- C5: the PPO policy is parameter-efficient — the LoRA configuration has
rank 8 and alpha 16, `lora_model` is built from the base model and that
configuration, `ppo_model` is the value-head wrapper over `lora_model`, the
PPO trainer's `model=` argument is `ppo_model`, and a PPO training run of
any length leaves every frozen base-model weight unchanged. -/
theorem ppo_policy_parameter_efficient :
    lora_config.r = 8 ∧ lora_config.lora_alpha = 16 ∧
    (rlhfScript.filter (fun s => s.assigns == ["lora_model"])).map
      Stmt.buildsOn = [["lm_model", "lora_config"]] ∧
    (rlhfScript.filter (fun s => s.assigns == ["ppo_model"])).map
      Stmt.buildsOn = [["CustomValueHeadModel", "lora_model"]] ∧
    (rlhfScript.filter (fun s => s.tag == StmtTag.ppoTrainerInit)).map
      Stmt.modelArg = [some "ppo_model"] ∧
    ∀ steps p, (runPpoSteps steps p).baseWeights = p.baseWeights :=
  ⟨rfl, rfl, by decide, by decide, by decide, runPpoSteps_base⟩

/-- C6: the notebook configures TRL's PPO with `cliprange = 0.2`,
`gamma = 1`, `lam = 0.95`, one PPO epoch and `num_sample_generations = 0`,
and the script contains exactly one `ppo_trainer.train()` call. -/
theorem ppo_config_and_single_train_call :
    ppo_config.cliprange = 1/5 ∧ ppo_config.gamma = 1 ∧
    ppo_config.lam = 19/20 ∧ ppo_config.num_ppo_epochs = 1 ∧
    ppo_config.num_sample_generations = 0 ∧
    rlhfScript.countP (fun s => s.tag == StmtTag.ppoTrainCall) = 1 := by
  refine ⟨by norm_num [ppo_config], rfl, by norm_num [ppo_config], rfl, rfl,
    by decide⟩

/-- C7: `CustomValueHeadModel.forward` always passes
`output_hidden_states = true` to the wrapped pretrained model, raises
`ValueError` exactly when the wrapped model's output has no logits, and
otherwise returns the wrapped model's output unchanged. -/
theorem customValueHeadModel_forward_spec
    (pretrained_model : Kwargs → WrappedOutput) (kw : Kwargs) :
    (setHiddenStates kw).output_hidden_states = true ∧
    ((pretrained_model (setHiddenStates kw)).logits = none ↔
      CustomValueHeadModel.forward pretrained_model kw =
        Except.error "Expected model outputs to have `.logits`.") ∧
    ((pretrained_model (setHiddenStates kw)).logits ≠ none ↔
      CustomValueHeadModel.forward pretrained_model kw =
        Except.ok (pretrained_model (setHiddenStates kw))) := by
  refine ⟨rfl, ?_, ?_⟩ <;>
    · unfold CustomValueHeadModel.forward
      cases h : (pretrained_model (setHiddenStates kw)).logits <;>
        simp [h, Option.isSome]

/-- C7 witness: the theorem at a concrete wrapped model (whose output has
logits `[[1]]`) and concrete keyword arguments. -/
theorem customValueHeadModel_forward_spec_witness :
    CustomValueHeadModel.forward
      (fun _ =>
        { logits := some [[(1 : ℚ)]], hidden_states := none, others := [] })
      { output_hidden_states := false, rest := [] } =
      Except.ok
        { logits := some [[(1 : ℚ)]], hidden_states := none, others := [] } :=
  ((customValueHeadModel_forward_spec
      (fun _ =>
        { logits := some [[(1 : ℚ)]], hidden_states := none, others := [] })
      { output_hidden_states := false, rest := [] }).2.2).mp (by decide)

/-- C8: `PairwiseDataset` keeps preference pairs aligned — its length is the
number of rows of the chosen encodings, `__getitem__ i` returns the chosen
and the rejected entries taken at the same index `i`, and (when each batch's
two tensors have equal row counts, as the padding tokenizer guarantees)
indexing succeeds at every `i < len` exactly when the rejected encodings
have at least as many rows as the chosen encodings. -/
theorem pairwiseDataset_alignment (d : PairwiseDataset)
    (hc : d.chosen_encodings.attention_mask.length =
      d.chosen_encodings.input_ids.length)
    (hr : d.rejected_encodings.attention_mask.length =
      d.rejected_encodings.input_ids.length) :
    d.len = d.chosen_encodings.rows ∧
    (∀ i c1 c2 r1 r2, d.getItem i = some ((c1, c2), (r1, r2)) →
      d.chosen_encodings.input_ids.get? i = some c1 ∧
      d.chosen_encodings.attention_mask.get? i = some c2 ∧
      d.rejected_encodings.input_ids.get? i = some r1 ∧
      d.rejected_encodings.attention_mask.get? i = some r2) ∧
    ((∀ i, i < d.len → (d.getItem i).isSome = true) ↔
      d.len ≤ d.rejected_encodings.rows) := by
  refine ⟨rfl, ?_, ?_⟩
  · intro i c1 c2 r1 r2 hget
    unfold PairwiseDataset.getItem at hget
    cases hA : d.chosen_encodings.getRow i with
    | none => rw [hA] at hget; exact absurd hget (by simp)
    | some c =>
      cases hB : d.rejected_encodings.getRow i with
      | none => rw [hA, hB] at hget; exact absurd hget (by simp)
      | some r =>
        rw [hA, hB] at hget
        have hcr : c = (c1, c2) ∧ r = (r1, r2) := by simpa using hget
        obtain ⟨rfl, rfl⟩ := hcr
        have h1 := (getRow_eq_some_iff d.chosen_encodings i c1 c2).mp hA
        have h2 := (getRow_eq_some_iff d.rejected_encodings i r1 r2).mp hB
        exact ⟨h1.1, h1.2, h2.1, h2.2⟩
  · have hsome : ∀ i, (d.getItem i).isSome = true ↔
        (d.chosen_encodings.getRow i).isSome = true ∧
        (d.rejected_encodings.getRow i).isSome = true := by
      intro i
      unfold PairwiseDataset.getItem
      cases h1 : d.chosen_encodings.getRow i <;>
        cases h2 : d.rejected_encodings.getRow i <;> simp
    constructor
    · intro hall
      rcases Nat.eq_zero_or_pos d.len with hz | hpos
      · rw [hz]; exact Nat.zero_le _
      · have h := hall (d.len - 1) (by omega)
        rw [hsome] at h
        have := (getRow_isSome_iff d.rejected_encodings (d.len - 1)).mp h.2
        unfold Encodings.rows
        omega
    · intro hle i hi
      rw [hsome]
      constructor
      · rw [getRow_isSome_iff]
        unfold PairwiseDataset.len at hi
        omega
      · rw [getRow_isSome_iff]
        unfold PairwiseDataset.len at hi hle
        unfold Encodings.rows at hle
        omega

/-- C8 witness: the theorem at a concrete two-row dataset whose rejected
batch also has two rows. -/
theorem pairwiseDataset_alignment_witness :
    (({ chosen_encodings := { input_ids := [[1], [2]],
                              attention_mask := [[1], [1]] },
        rejected_encodings := { input_ids := [[3], [4]],
                                attention_mask := [[1], [1]] } } :
        PairwiseDataset).chosen_encodings.attention_mask.length =
      ({ chosen_encodings := { input_ids := [[1], [2]],
                               attention_mask := [[1], [1]] },
         rejected_encodings := { input_ids := [[3], [4]],
                                 attention_mask := [[1], [1]] } } :
         PairwiseDataset).chosen_encodings.input_ids.length) ∧
    ((∀ i, i < ({ chosen_encodings := { input_ids := [[1], [2]],
                                        attention_mask := [[1], [1]] },
                  rejected_encodings := { input_ids := [[3], [4]],
                                          attention_mask := [[1], [1]] } } :
                  PairwiseDataset).len →
        (({ chosen_encodings := { input_ids := [[1], [2]],
                                  attention_mask := [[1], [1]] },
            rejected_encodings := { input_ids := [[3], [4]],
                                    attention_mask := [[1], [1]] } } :
            PairwiseDataset).getItem i).isSome = true) ↔
      ({ chosen_encodings := { input_ids := [[1], [2]],
                               attention_mask := [[1], [1]] },
         rejected_encodings := { input_ids := [[3], [4]],
                                 attention_mask := [[1], [1]] } } :
         PairwiseDataset).len ≤
        ({ chosen_encodings := { input_ids := [[1], [2]],
                                 attention_mask := [[1], [1]] },
           rejected_encodings := { input_ids := [[3], [4]],
                                   attention_mask := [[1], [1]] } } :
           PairwiseDataset).rejected_encodings.rows) :=
  ⟨rfl,
    (pairwiseDataset_alignment
      { chosen_encodings := { input_ids := [[1], [2]],
                              attention_mask := [[1], [1]] },
        rejected_encodings := { input_ids := [[3], [4]],
                                attention_mask := [[1], [1]] } }
      rfl rfl).2.2⟩

/-- C9: after the pad-token fixup, the policy tokenizer's `pad_token` is not
`None` (given that the loaded LLaMA tokenizer has an `eos_token`); the
`eos_token` is assigned exactly when the loaded tokenizer had no pad token,
and the tokenizer is left unchanged otherwise. -/
theorem setupPadToken_spec (tok : LMTokenizer) (h : tok.eos_token ≠ none) :
    (setupPadToken tok).pad_token ≠ none ∧
    (tok.pad_token = none →
      (setupPadToken tok).pad_token = tok.eos_token) ∧
    (tok.pad_token ≠ none → setupPadToken tok = tok) := by
  unfold setupPadToken
  by_cases hp : tok.pad_token = none <;> simp [hp, h]

/-- C9 witness: the theorem at the concrete loaded-tokenizer state with no
pad token and eos token "</s>" (the LLaMA tokenizer's). -/
theorem setupPadToken_spec_witness :
    (({ pad_token := none, eos_token := some "</s>" } :
        LMTokenizer).eos_token ≠ none) ∧
    (setupPadToken { pad_token := none, eos_token := some "</s>" }).pad_token
      ≠ none ∧
    (({ pad_token := none, eos_token := some "</s>" } :
        LMTokenizer).pad_token = none →
      (setupPadToken
        { pad_token := none, eos_token := some "</s>" }).pad_token =
        ({ pad_token := none, eos_token := some "</s>" } :
          LMTokenizer).eos_token) ∧
    (({ pad_token := none, eos_token := some "</s>" } :
        LMTokenizer).pad_token ≠ none →
      setupPadToken { pad_token := none, eos_token := some "</s>" } =
        { pad_token := none, eos_token := some "</s>" }) :=
  ⟨by decide,
    setupPadToken_spec { pad_token := none, eos_token := some "</s>" }
      (by decide)⟩

/-- C10: every statement of the pipeline-tour notebook is setup, a pipeline
construction or a pipeline invocation — never a direct tokenizer or model
call — and every pipeline invocation takes raw text (a string, a list of
strings, or question/context strings) and returns a post-processed Python
structure (a list of dicts or a dict). -/
theorem pipeline_tour_end_to_end :
    tourScript.all (fun s =>
      !(s.tourKind == TourKind.directModelUse) &&
      !(s.tourKind == TourKind.directTokenizerUse) &&
      (!(s.tourKind == TourKind.pipelineInvoke) ||
        ((Option.map PyInput.rawText s.input).getD false &&
          s.output.isSome))) = true := by
  decide

end LlmLearning
